import Mathlib

/-!
Formal model of the `idasen-desk-lib` Rust crate (files `src/desk.rs`,
`src/bluetooth.rs`, `src/error.rs`).

Conventions of the embedding:
* Heights and thresholds are rationals (`ℚ`); the Rust source computes with
  `f32`/`f64`, whose exact rounding is irrelevant to the control-flow
  properties verified here, so the arithmetic is modelled exactly.
* Byte vectors are `List ℕ` (each entry a `u8` value `0 ≤ b ≤ 255`).
* A Rust panic (out-of-bounds index, `.unwrap()` on `None`) is modelled by
  returning `none` from an `Option`-valued function.
* The shared mutably-locked height cell of `move_to_target` is modelled by a
  `Sim` record giving the value returned by each `lock()` read of the cell and
  the elapsed-millisecond reading of each loop iteration.
-/

namespace IdasenDesk

/-- Model of `MAX_HEIGHT` (desk.rs line 22): `1.27`. -/
def MAX_HEIGHT : ℚ := 127 / 100

/-- Model of `MIN_HEIGHT` (desk.rs line 23): `0.62`. -/
def MIN_HEIGHT : ℚ := 62 / 100

/-- Model of `UUID_HEIGHT` (desk.rs line 13). -/
def UUID_HEIGHT : String := "99fa0021-338a-1024-8a49-009c0215f78a"

/-- Model of `UUID_COMMAND` (desk.rs line 14). -/
def UUID_COMMAND : String := "99fa0002-338a-1024-8a49-009c0215f78a"

/-- Model of `UUID_REFERENCE_INPUT` (desk.rs line 15). -/
def UUID_REFERENCE_INPUT : String := "99fa0031-338a-1024-8a49-009c0215f78a"

/-- Model of `enum DeskError` (error.rs) together with the
`CannotSubscribePosition` variant referenced at desk.rs line 69. -/
inductive DeskError where
  | TargetHeightTooHigh (t : ℚ)
  | TargetHeightTooLow (t : ℚ)
  | DeskMoveSafetyKickedIn
  | CannotSubscribePosition
  | BluetoothError
deriving DecidableEq, Repr

/-- Model of `enum Direction` (desk.rs lines 25-29). -/
inductive Direction where
  | Up
  | Down
deriving DecidableEq, Repr

/-- Model of a `Desk` value (desk.rs lines 31-37).  A btleplug
`Characteristic` is opaque to this crate except for its UUID, so a
characteristic is modelled by its UUID string and the
`characteristics_map : HashMap<String, Characteristic>` by the list of UUIDs
it contains (insertion order irrelevant, lookup is by key equality). -/
structure DeskModel where
  name : String
  characteristics_map : List String
deriving DecidableEq, Repr

/-- Model of `get_character_map` (desk.rs lines 339-347): builds the map keyed
by each characteristic's UUID string.  Since a characteristic is modelled by
its UUID, the map is the list of UUIDs itself. -/
def get_character_map (characters : List String) : List String :=
  characters

/-- Model of `HashMap::get` on a `characteristics_map`: `some uuid` exactly
when the UUID key is present. -/
def map_get (m : List String) (uuid : String) : Option String :=
  if uuid ∈ m then some uuid else none

/-- Model of `bytes_to_meters` (desk.rs lines 356-362):
`high_byte = raw[1]`, `low_byte = raw[0]`, `number = (high_byte << 8) + low_byte`,
result `number / 10000.0 + MIN_HEIGHT`.  Indexing `raw[1]` (and `raw[0]`)
panics when the vector has fewer than two entries; the panic is modelled by
`none`.  Entries past the first two are never read. -/
def bytes_to_meters (raw : List ℕ) : Option ℚ :=
  match raw with
  | b0 :: b1 :: _ => some (((b1 * 256 + b0 : ℕ) : ℚ) / 10000 + MIN_HEIGHT)
  | _ => none

/-- Model of `Desk::get_height` (desk.rs lines 90-95): unwrap the height
characteristic from the map (panic when absent), read the raw bytes over the
transport (the successfully read payload is the `raw` argument), and decode
with `bytes_to_meters`. -/
def desk_get_height (d : DeskModel) (raw : List ℕ) : Option ℚ :=
  match map_get d.characteristics_map UUID_HEIGHT with
  | none => none
  | some _ => bytes_to_meters raw

/-- Model of the body of the background task spawned by
`monitor_height_notification_stream` (desk.rs lines 286-291): each
notification payload is decoded with `bytes_to_meters` and stored into the
shared cell.  The decode of one notification payload is modelled here. -/
def monitor_notification_decode (raw : List ℕ) : Option ℚ :=
  bytes_to_meters raw

/-- Model of `Desk::from_peripheral` (desk.rs lines 57-85): build the
characteristic map, `unwrap` the height characteristic (panic when the height
UUID is absent), subscribe to it (`CannotSubscribePosition` on failure, the
`subscribeOk` argument gives the subscription outcome), and otherwise return
the constructed desk.  The command and reference-input characteristics are not
examined. -/
def from_peripheral (characteristics : List String) (local_name : String)
    (subscribeOk : Bool) : Option (Except DeskError DeskModel) :=
  let m := get_character_map characteristics
  match map_get m UUID_HEIGHT with
  | none => none
  | some _ =>
      if subscribeOk then some (Except.ok ⟨local_name, m⟩)
      else some (Except.error DeskError.CannotSubscribePosition)

/-- Model of `Desk::stop` (desk.rs lines 104-121): unwrap the command and
reference-input characteristics from the map (panic when either is absent),
then issue both writes — `0xFF,0x00` to the command characteristic and
`0x01,0x80` to the reference-input characteristic — via `tokio::join!`.  The
two write outcomes (`r1`, `r2` : `true` = the write succeeded) are bound to
`(_, _)` and discarded; the function returns `Ok(())` unconditionally.  The
returned list records every write issued (characteristic UUID, payload). -/
def desk_stop (d : DeskModel) (_r1 _r2 : Bool) :
    Option (List (String × List ℕ) × Except DeskError Unit) :=
  match map_get d.characteristics_map UUID_COMMAND,
        map_get d.characteristics_map UUID_REFERENCE_INPUT with
  | some c, some r => some ([(c, [255, 0]), (r, [1, 128])], Except.ok ())
  | _, _ => none

/-- Commands written to the desk during `move_to_target`: a `stop` (the pair
of writes of `Desk::stop`) or a move command (`Desk::move_direction` with
`Up` or `Down`). -/
inductive Cmd where
  | stop
  | up
  | down
deriving DecidableEq, Repr

/-- Simulated behaviour of the shared height cell and clock during one
`move_to_target` call, playing the role of the spec's simulated `HeightFeed`:
`cur i` is the value returned by the `desk_height.lock()` read at the top of
loop iteration `i` (desk.rs line 170), `nxt i` the value returned by the
read at the bottom of iteration `i` that becomes `previous_height`
(desk.rs line 230), and `elapsedMs i` the `previous_height_read_at.elapsed()`
millisecond reading of iteration `i` (desk.rs line 171). -/
structure Sim where
  cur : ℕ → ℚ
  nxt : ℕ → ℚ
  elapsedMs : ℕ → ℕ

/-- Model of the safety-reversal test (desk.rs lines 194-197):
`((current_height < previous_height && will_move_up) ||
current_height > previous_height && !will_move_up) && difference_abs > 0.010`. -/
def safetyTriggered (willUp : Bool) (cur prev target : ℚ) : Bool :=
  ((decide (cur < prev) && willUp) || (decide (cur > prev) && !willUp))
    && decide (|target - cur| > 1 / 100)

/-- Model of the anticipatory-stop test (desk.rs line 204):
`difference.abs() < (speed / 2.0).max(0.01)` with
`speed = (difference_abs / elapsed_milliseconds) * 100.0`.  When
`elapsed_milliseconds = 0` the f64 division yields `inf` (or `NaN` when the
difference is also zero, in which case `f64::max` returns `0.01`), and the
comparison is true either way; that case is therefore modelled as `true`. -/
def anticipStop (diffAbs : ℚ) (elapsedMs : ℕ) : Bool :=
  if elapsedMs = 0 then true
  else decide (diffAbs < max (diffAbs / elapsedMs * 100 / 2) (1 / 100))

/-- Model of the `loop` of `move_to_target` (desk.rs lines 169-238),
parametrised by the fuel (number of iterations still allowed), the current
`previous_height` and the iteration index.  Each iteration reads the cell,
checks the safety reversal (returning `DeskMoveSafetyKickedIn` with no writes
when it fires), possibly issues an anticipatory `stop`, returns `Ok(())`
after a final `stop` when within the 3 mm tolerance, and otherwise issues the
move command and continues.  The first component collects the commands
issued; a second component of `none` means the fuel ran out with the loop
still running. -/
def seekLoop (target : ℚ) (willUp : Bool) (sim : Sim) :
    ℕ → ℚ → ℕ → List Cmd × Option (Except DeskError Unit)
  | 0, _, _ => ([], none)
  | fuel + 1, prev, i =>
      let cur := sim.cur i
      let diff := target - cur
      if safetyTriggered willUp cur prev target then
        ([], some (Except.error DeskError.DeskMoveSafetyKickedIn))
      else
        let e1 : List Cmd :=
          if anticipStop |diff| (sim.elapsedMs i) then [Cmd.stop] else []
        if |diff| ≤ 3 / 1000 then
          (e1 ++ [Cmd.stop], some (Except.ok ()))
        else
          let e2 : List Cmd :=
            if 0 < diff then [Cmd.up] else if diff < 0 then [Cmd.down] else []
          let r := seekLoop target willUp sim fuel (sim.nxt i) (i + 1)
          (e1 ++ e2 ++ r.1, r.2)

/-- Model of `Desk::move_to_target` (desk.rs lines 144-239): the two bounds
checks precede every transport operation; then `will_move_up` is fixed as
`target > previous_height` for the initial height `h0` returned by
`get_height`, and the seek loop runs over the simulated cell reads. -/
def move_to_target (target h0 : ℚ) (sim : Sim) (fuel : ℕ) :
    List Cmd × Option (Except DeskError Unit) :=
  if target > MAX_HEIGHT then
    ([], some (Except.error (DeskError.TargetHeightTooHigh target)))
  else if target < MIN_HEIGHT then
    ([], some (Except.error (DeskError.TargetHeightTooLow target)))
  else
    seekLoop target (decide (h0 < target)) sim fuel h0 0

/-- Value of the loop's `previous_height` variable at the start of iteration
`k`, for a loop whose first iteration is `i` and entered with
`previous_height = prev`: iteration `i + k` compares against `prev` when
`k = 0` and against the bottom-of-iteration read `nxt (i + k - 1)`
otherwise. -/
def prevSeqFrom (sim : Sim) (prev : ℚ) (i : ℕ) : ℕ → ℚ
  | 0 => prev
  | k + 1 => sim.nxt (i + k)

/-- A sampled height that has not moved opposite to the direction of travel:
nondecreasing reads while seeking up, nonincreasing while seeking down. -/
def noReversal (willUp : Bool) (cur prev : ℚ) : Bool :=
  if willUp then decide (prev ≤ cur) else decide (cur ≤ prev)

/-- Commands issued by one non-returning loop iteration that read height
`cur` with elapsed time `elapsedMs` (the anticipatory stop followed by the
arrival stop or the move command). -/
def iterCmds (target cur : ℚ) (elapsedMs : ℕ) : List Cmd :=
  let diff := target - cur
  let e1 : List Cmd := if anticipStop |diff| elapsedMs then [Cmd.stop] else []
  if |diff| ≤ 3 / 1000 then e1 ++ [Cmd.stop]
  else
    e1 ++ (if 0 < diff then [Cmd.up] else if diff < 0 then [Cmd.down] else [])

/-- Commands issued by the `n` loop iterations starting at iteration `i`,
assuming none of them returns. -/
def cmdsBeforeFrom (target : ℚ) (sim : Sim) (i : ℕ) : ℕ → List Cmd
  | 0 => []
  | n + 1 =>
      iterCmds target (sim.cur i) (sim.elapsedMs i)
        ++ cmdsBeforeFrom target sim (i + 1) n

/-- Commands issued by the first `n` loop iterations of a run. -/
def cmdsBefore (target : ℚ) (sim : Sim) (n : ℕ) : List Cmd :=
  cmdsBeforeFrom target sim 0 n

/-- The cell-read behaviour of the UNMODIFIED source: desk.rs line 167 binds
the future returned by `monitor_height_notification_stream` to `_` without
awaiting it, so the future is dropped unpolled, the background task is never
spawned, and nothing ever writes the shared cell after its initialisation to
the starting height `h` — every read returns `h`. -/
def constSim (h : ℚ) (el : ℕ → ℕ) : Sim :=
  ⟨fun _ => h, fun _ => h, el⟩

/-- Model of a btleplug `Peripheral` as seen by `bluetooth.rs`: only its
address (a 6-byte `BDAddr`, modelled as an opaque natural number compared for
equality) is inspected. -/
structure BtPeripheral where
  addr : ℕ
deriving DecidableEq, Repr

/-- Model of `RETRY_COUNT` (bluetooth.rs line 9). -/
def RETRY_COUNT : ℕ := 3

/-- Observable side effects of `find_desk_adapter`'s connection phase: a
`connect()` attempt with its loop index, or a `sleep` of the given number of
milliseconds. -/
inductive BtEvent where
  | connectAttempt (i : ℕ)
  | sleepMs (ms : ℕ)
deriving DecidableEq, Repr

/-- Model of `find_desk` (bluetooth.rs lines 40-51): scan the discovered
peripherals in order and return the first whose address equals
`desk_address`; `none` when no peripheral matches. -/
def find_desk (desk_address : ℕ) (peripherals : List BtPeripheral) :
    Option BtPeripheral :=
  peripherals.find? (fun x => x.addr == desk_address)

/-- Model of the `for i in 0..RETRY_COUNT` connection loop of
`find_desk_adapter` (bluetooth.rs lines 84-97).  `res i` is the outcome of the
`i`-th `connect()` attempt (`true` = `Ok`).  The first component lists the
events issued; the second is `true` exactly when the loop executed
`return Err(e.into())` — that is, when the `i == RETRY_COUNT` branch fired.
On `Ok` the loop breaks; on `Err` with `i ≠ RETRY_COUNT` it sleeps 50 ms and
continues; `n` is the number of loop iterations remaining. -/
def connect_retry_loop (res : ℕ → Bool) : ℕ → ℕ → List BtEvent × Bool
  | 0, _ => ([], false)
  | n + 1, i =>
      if res i then ([BtEvent.connectAttempt i], false)
      else if i = RETRY_COUNT then ([BtEvent.connectAttempt i], true)
      else
        let r := connect_retry_loop res n (i + 1)
        (BtEvent.connectAttempt i :: BtEvent.sleepMs 50 :: r.1, r.2)

/-- Model of `find_desk_adapter` (bluetooth.rs lines 63-102) after the scan
settle window: locate the peripheral by address and `.unwrap()` it (panic —
`none` — when absent); when `connect` is false return it immediately;
otherwise run the connection retry loop, then (on falling through or breaking)
discover services and return the peripheral.  `Except.error ()` marks the
`return Err(e.into())` path that surfaces the last connection error. -/
def find_desk_adapter (address : ℕ) (peripherals : List BtPeripheral)
    (connect : Bool) (res : ℕ → Bool) :
    Option (List BtEvent × Except Unit BtPeripheral) :=
  match find_desk address peripherals with
  | none => none
  | some p =>
      if !connect then some ([], Except.ok p)
      else
        let r := connect_retry_loop res RETRY_COUNT 0
        some (r.1, if r.2 then Except.error () else Except.ok p)

/-- A concrete simulated feed approaching the target 0.74 m monotonically
from below: top-of-loop reads 0.70, 0.72, 0.738 and bottom-of-loop reads
0.71, 0.73, never decreasing between consecutive reads. -/
def simMonotone : Sim :=
  ⟨fun n => if n = 0 then 7 / 10 else if n = 1 then 18 / 25 else 369 / 500,
    fun n => if n = 0 then 71 / 100 else 73 / 100,
    fun _ => 50⟩

/-- A concrete simulated feed that reverses immediately: seeking up from
0.70, the first read reports 0.68 — a 20 mm move opposite to the direction
of travel. -/
def simReversal : Sim :=
  ⟨fun _ => 17 / 25, fun _ => 7 / 10, fun _ => 50⟩

/-- A concrete simulated feed that reverses on the second iteration: seeking
up from 0.70, iteration 0 reads 0.70 then 0.71, and iteration 1 reads 0.69 —
a 20 mm move opposite to the direction of travel. -/
def simReversalLater : Sim :=
  ⟨fun n => if n = 0 then 7 / 10 else 69 / 100,
    fun _ => 71 / 100,
    fun _ => 50⟩

end IdasenDesk

namespace IdasenDesk

/- Batteries marks the `Rat` field operations `@[irreducible]`; witnesses
evaluate concrete runs of the model by `decide`, which needs them to
unfold. -/
attribute [local semireducible] Rat.mul Rat.sub Rat.add Rat.inv


/-- C8: decoding a raw sample of at least two bytes yields the little-endian
16-bit value of the first two bytes divided by 10000 plus `MIN_HEIGHT`, and
this same decoding is used by the synchronous `get_height` read and by the
notification-stream task. -/
theorem bytes_to_meters_little_endian (d : DeskModel) (b0 b1 : ℕ) (rest : List ℕ)
    (hd : UUID_HEIGHT ∈ d.characteristics_map) :
    bytes_to_meters (b0 :: b1 :: rest)
        = some (((b0 : ℚ) + 256 * (b1 : ℚ)) / 10000 + MIN_HEIGHT) ∧
    desk_get_height d (b0 :: b1 :: rest)
        = some (((b0 : ℚ) + 256 * (b1 : ℚ)) / 10000 + MIN_HEIGHT) ∧
    monitor_notification_decode (b0 :: b1 :: rest)
        = some (((b0 : ℚ) + 256 * (b1 : ℚ)) / 10000 + MIN_HEIGHT) := by
  have hval : bytes_to_meters (b0 :: b1 :: rest)
      = some (((b0 : ℚ) + 256 * (b1 : ℚ)) / 10000 + MIN_HEIGHT) := by
    simp only [bytes_to_meters]
    congr 1
    push_cast
    ring
  refine ⟨hval, ?_, hval⟩
  simp only [desk_get_height, map_get, if_pos hd]
  exact hval

/-- Witness for `bytes_to_meters_little_endian` at a concrete desk and
payload. -/
theorem bytes_to_meters_little_endian_witness :
    bytes_to_meters [16, 4, 9]
        = some (((16 : ℚ) + 256 * (4 : ℚ)) / 10000 + MIN_HEIGHT) ∧
    desk_get_height ⟨"Desk", [UUID_HEIGHT]⟩ [16, 4, 9]
        = some (((16 : ℚ) + 256 * (4 : ℚ)) / 10000 + MIN_HEIGHT) ∧
    monitor_notification_decode [16, 4, 9]
        = some (((16 : ℚ) + 256 * (4 : ℚ)) / 10000 + MIN_HEIGHT) :=
  bytes_to_meters_little_endian ⟨"Desk", [UUID_HEIGHT]⟩ 16 4 [9] (by decide)

/-- C10: on a payload of fewer than two bytes the decoder panics (modelled by
`none`) rather than returning an error value — so `get_height` and the
notification task are total only on payloads of at least two bytes — and any
bytes beyond the first two are ignored. -/
theorem bytes_to_meters_short_payload (raw : List ℕ) (d : DeskModel) :
    (raw.length < 2 →
      bytes_to_meters raw = none ∧ desk_get_height d raw = none ∧
        monitor_notification_decode raw = none) ∧
    (∀ b0 b1 : ℕ, ∀ rest : List ℕ,
      bytes_to_meters (b0 :: b1 :: rest) = bytes_to_meters [b0, b1]) := by
  constructor
  · intro hlen
    have hnone : bytes_to_meters raw = none := by
      match raw, hlen with
      | [], _ => rfl
      | [_], _ => rfl
    refine ⟨hnone, ?_, hnone⟩
    simp only [desk_get_height]
    cases map_get d.characteristics_map UUID_HEIGHT with
    | none => rfl
    | some _ => exact hnone
  · intro b0 b1 rest
    rfl

/-- Witness for `bytes_to_meters_short_payload` at a concrete one-byte
payload. -/
theorem bytes_to_meters_short_payload_witness :
    (bytes_to_meters [7] = none ∧
      desk_get_height ⟨"Desk", [UUID_HEIGHT]⟩ [7] = none ∧
      monitor_notification_decode [7] = none) ∧
    bytes_to_meters [3, 5, 99] = bytes_to_meters [3, 5] :=
  ⟨(bytes_to_meters_short_payload [7] ⟨"Desk", [UUID_HEIGHT]⟩).1 (by decide),
    (bytes_to_meters_short_payload [7] ⟨"Desk", [UUID_HEIGHT]⟩).2 3 5 [99]⟩

/-- C5 counterexample: on a desk holding both required characteristics, when
the first write fails (`r1 = false`) and the second succeeds (`r2 = true`),
`stop` still returns `Ok(())` — not an error, contrary to the claim that a
partial success is an overall failure for the call. -/
theorem stop_one_write_failed_returns_ok :
    desk_stop ⟨"Desk", [UUID_HEIGHT, UUID_COMMAND, UUID_REFERENCE_INPUT]⟩
        false true
      = some ([(UUID_COMMAND, [255, 0]), (UUID_REFERENCE_INPUT, [1, 128])],
          Except.ok ()) := rfl

/-- C5 amended: whenever `stop` runs without panicking it returns `Ok(())`
regardless of the two write outcomes — in particular a partial failure is not
reported as an error — and the successful write is not rolled back (both
writes stay issued). -/
theorem stop_ignores_write_outcomes (d : DeskModel) (r1 r2 : Bool)
    (ev : List (String × List ℕ)) (out : Except DeskError Unit)
    (h : desk_stop d r1 r2 = some (ev, out)) :
    out = Except.ok () ∧ ev.length = 2 := by
  unfold desk_stop at h
  cases hc : map_get d.characteristics_map UUID_COMMAND with
  | none => rw [hc] at h; exact absurd h (by simp)
  | some c =>
    cases hr : map_get d.characteristics_map UUID_REFERENCE_INPUT with
    | none => rw [hc, hr] at h; exact absurd h (by simp)
    | some r =>
      rw [hc, hr] at h
      simp only [Option.some.injEq, Prod.mk.injEq] at h
      exact ⟨h.2.symm, by rw [← h.1]; rfl⟩

/-- Witness for `stop_ignores_write_outcomes` at a concrete desk with a
failed first write. -/
theorem stop_ignores_write_outcomes_witness :
    Except.ok () = (Except.ok () : Except DeskError Unit) ∧
    ([((UUID_COMMAND : String), ([255, 0] : List ℕ)),
      (UUID_REFERENCE_INPUT, [1, 128])]).length = 2 :=
  stop_ignores_write_outcomes
    ⟨"Desk", [UUID_HEIGHT, UUID_COMMAND, UUID_REFERENCE_INPUT]⟩ false true
    [(UUID_COMMAND, [255, 0]), (UUID_REFERENCE_INPUT, [1, 128])]
    (Except.ok ()) rfl

/-- C7: every non-panicking `stop` call issues the write `0xFF,0x00` to the
command characteristic and the write `0x01,0x80` to the reference-input
characteristic, for every combination of write outcomes — in particular the
second write is attempted even when the first one fails. -/
theorem stop_attempts_both_writes (d : DeskModel) (r1 r2 : Bool)
    (ev : List (String × List ℕ)) (out : Except DeskError Unit)
    (h : desk_stop d r1 r2 = some (ev, out)) :
    (UUID_COMMAND, ([255, 0] : List ℕ)) ∈ ev ∧
      (UUID_REFERENCE_INPUT, ([1, 128] : List ℕ)) ∈ ev := by
  unfold desk_stop at h
  cases hc : map_get d.characteristics_map UUID_COMMAND with
  | none => rw [hc] at h; exact absurd h (by simp)
  | some c =>
    cases hr : map_get d.characteristics_map UUID_REFERENCE_INPUT with
    | none => rw [hc, hr] at h; exact absurd h (by simp)
    | some r =>
      have hc2 : c = UUID_COMMAND := by
        unfold map_get at hc
        by_cases hmem : UUID_COMMAND ∈ d.characteristics_map
        · rw [if_pos hmem] at hc; exact (Option.some.injEq _ _ ▸ hc).symm
        · rw [if_neg hmem] at hc; exact absurd hc (by simp)
      have hr2 : r = UUID_REFERENCE_INPUT := by
        unfold map_get at hr
        by_cases hmem : UUID_REFERENCE_INPUT ∈ d.characteristics_map
        · rw [if_pos hmem] at hr; exact (Option.some.injEq _ _ ▸ hr).symm
        · rw [if_neg hmem] at hr; exact absurd hr (by simp)
      rw [hc, hr] at h
      simp only [Option.some.injEq, Prod.mk.injEq] at h
      subst hc2; subst hr2
      rw [← h.1]
      exact ⟨by simp, by simp⟩

/-- Witness for `stop_attempts_both_writes` at a concrete desk whose first
write fails (`r1 = false`). -/
theorem stop_attempts_both_writes_witness :
    (UUID_COMMAND, ([255, 0] : List ℕ))
        ∈ [((UUID_COMMAND : String), ([255, 0] : List ℕ)),
            (UUID_REFERENCE_INPUT, [1, 128])] ∧
      (UUID_REFERENCE_INPUT, ([1, 128] : List ℕ))
        ∈ [((UUID_COMMAND : String), ([255, 0] : List ℕ)),
            (UUID_REFERENCE_INPUT, [1, 128])] :=
  stop_attempts_both_writes
    ⟨"Desk", [UUID_HEIGHT, UUID_COMMAND, UUID_REFERENCE_INPUT]⟩ false true
    [(UUID_COMMAND, [255, 0]), (UUID_REFERENCE_INPUT, [1, 128])]
    (Except.ok ()) rfl

/-- C9 counterexample: a peripheral exposing only the height characteristic —
thus lacking the command and reference-input characteristics — is constructed
successfully by `from_peripheral`, and the missing command characteristic is
only discovered later, at runtime, when `stop` panics on the map lookup. -/
theorem from_peripheral_missing_command_succeeds :
    from_peripheral [UUID_HEIGHT] "Desk" true
        = some (Except.ok ⟨"Desk", [UUID_HEIGHT]⟩) ∧
      desk_stop ⟨"Desk", [UUID_HEIGHT]⟩ true true = none :=
  ⟨rfl, rfl⟩

/-- C9 amended: construction checks only the height characteristic — a
peripheral lacking the height UUID makes `from_peripheral` panic (`none`), a
present height UUID with a failing subscription yields
`CannotSubscribePosition`, and otherwise construction succeeds even when the
command characteristic is absent, in which case the absence surfaces only at
runtime as a panic of `stop`; no default handle is ever synthesized. -/
theorem from_peripheral_checks_only_height (chars : List String)
    (nm : String) (subOk : Bool) :
    (UUID_HEIGHT ∉ chars → from_peripheral chars nm subOk = none) ∧
    (UUID_HEIGHT ∈ chars → subOk = true →
      from_peripheral chars nm subOk = some (Except.ok ⟨nm, chars⟩)) ∧
    (UUID_HEIGHT ∈ chars → subOk = false →
      from_peripheral chars nm subOk
        = some (Except.error DeskError.CannotSubscribePosition)) ∧
    (UUID_COMMAND ∉ chars → ∀ r1 r2 : Bool,
      desk_stop ⟨nm, chars⟩ r1 r2 = none) := by
  refine ⟨?_, ?_, ?_, ?_⟩
  · intro hmem
    simp only [from_peripheral, get_character_map, map_get, if_neg hmem]
  · intro hmem hsub
    simp only [from_peripheral, get_character_map, map_get, if_pos hmem, hsub,
      if_true]
  · intro hmem hsub
    subst hsub
    simp [from_peripheral, get_character_map, map_get, if_pos hmem]
  · intro hmem r1 r2
    simp only [desk_stop, map_get, if_neg hmem]

/-- Witness for `from_peripheral_checks_only_height`, exercising all four
conjuncts at concrete characteristic sets. -/
theorem from_peripheral_checks_only_height_witness :
    from_peripheral [UUID_COMMAND] "Desk" true = none ∧
    from_peripheral [UUID_HEIGHT] "Desk" true
        = some (Except.ok ⟨"Desk", [UUID_HEIGHT]⟩) ∧
    from_peripheral [UUID_HEIGHT] "Desk" false
        = some (Except.error DeskError.CannotSubscribePosition) ∧
    desk_stop ⟨"Desk", [UUID_HEIGHT]⟩ true true = none :=
  ⟨(from_peripheral_checks_only_height [UUID_COMMAND] "Desk" true).1
      (by decide),
    (from_peripheral_checks_only_height [UUID_HEIGHT] "Desk" true).2.1
      (by decide) rfl,
    (from_peripheral_checks_only_height [UUID_HEIGHT] "Desk" false).2.2.1
      (by decide) rfl,
    (from_peripheral_checks_only_height [UUID_HEIGHT] "Desk" true).2.2.2
      (by decide) true true⟩

/-- C4: when every one of the `RETRY_COUNT = 3` connection attempts fails,
`find_desk_adapter` does NOT surface the last connection error: the loop index
`i` ranges over `0..RETRY_COUNT` and never equals `RETRY_COUNT`, so the
`return Err(e.into())` branch is dead and the call falls through — after a
50 ms sleep between attempts — to service discovery and returns the
peripheral handle as `Ok`. -/
theorem connect_retry_all_attempts_fail_returns_ok :
    find_desk_adapter 1 [⟨1⟩] true (fun _ => false)
      = some ([BtEvent.connectAttempt 0, BtEvent.sleepMs 50,
                BtEvent.connectAttempt 1, BtEvent.sleepMs 50,
                BtEvent.connectAttempt 2, BtEvent.sleepMs 50],
              Except.ok ⟨1⟩) := rfl

/-- C6 counterexample: when no discovered peripheral carries the requested
address, `find_desk_adapter` panics on `.unwrap()` of the `None` returned by
`find_desk` (modelled by `none`) — it crashes instead of returning a
"device not found" error. -/
theorem find_desk_adapter_absent_device_panics :
    find_desk_adapter 1 [⟨2⟩] true (fun _ => true) = none := rfl

/-- C6 amended: for every scan in which no discovered peripheral's address
equals the requested one, `find_desk_adapter` panics (`.unwrap()` on `None`,
modelled by `none`) — there is no silent retry of the scan, but the absence is
a crash of the calling process, not a returned "device not found" error. -/
theorem find_desk_adapter_absent_device_no_error (address : ℕ)
    (peripherals : List BtPeripheral) (connect : Bool) (res : ℕ → Bool)
    (h : ∀ p ∈ peripherals, p.addr ≠ address) :
    find_desk_adapter address peripherals connect res = none := by
  have hfind : find_desk address peripherals = none := by
    simp only [find_desk, List.find?_eq_none, beq_iff_eq]
    exact h
  simp only [find_desk_adapter, hfind]

/-- Witness for `find_desk_adapter_absent_device_no_error` at a concrete
non-matching scan result. -/
theorem find_desk_adapter_absent_device_no_error_witness :
    find_desk_adapter 1 [⟨2⟩] false (fun _ => true) = none :=
  find_desk_adapter_absent_device_no_error 1 [⟨2⟩] false (fun _ => true)
    (by decide)

/-- A read that does not reverse against the travel direction cannot fire the
safety check. -/
lemma noReversal_safety_false (willUp : Bool) (cur prev target : ℚ)
    (h : noReversal willUp cur prev = true) :
    safetyTriggered willUp cur prev target = false := by
  cases willUp with
  | false =>
    have hle : cur ≤ prev := by simpa [noReversal] using h
    have hlt : decide (cur > prev) = false := decide_eq_false (not_lt.2 hle)
    simp [safetyTriggered, hlt]
  | true =>
    have hle : prev ≤ cur := by simpa [noReversal] using h
    have hlt : decide (cur < prev) = false := decide_eq_false (not_lt.2 hle)
    simp [safetyTriggered, hlt]

/-- Shifting the start of a `prevSeqFrom` window by one iteration. -/
lemma prevSeqFrom_shift (sim : Sim) (prev : ℚ) (i k : ℕ) :
    prevSeqFrom sim (sim.nxt i) (i + 1) k = prevSeqFrom sim prev i (k + 1) := by
  cases k with
  | zero => simp [prevSeqFrom]
  | succ m =>
    show sim.nxt (i + 1 + m) = sim.nxt (i + (m + 1))
    congr 1
    omega

/-- Main arrival lemma for the seek loop: if no read up to iteration `N`
fires the safety check and the read of iteration `N` is within the 3 mm
tolerance, the loop returns `Ok(())` with at most `N + 1` iterations of fuel
and the last command issued is a `stop`. -/
lemma seekLoop_monotone_arrives (target : ℚ) (willUp : Bool) (sim : Sim) :
    ∀ (N i : ℕ) (prev : ℚ) (fuel : ℕ), N < fuel →
      (∀ k, k ≤ N →
        safetyTriggered willUp (sim.cur (i + k)) (prevSeqFrom sim prev i k)
          target = false) →
      |target - sim.cur (i + N)| ≤ 3 / 1000 →
      (seekLoop target willUp sim fuel prev i).2 = some (Except.ok ()) ∧
        (seekLoop target willUp sim fuel prev i).1.getLast? = some Cmd.stop := by
  intro N
  induction N with
  | zero =>
    intro i prev fuel hfuel hsafe harr
    obtain ⟨f, rfl⟩ : ∃ f, fuel = f + 1 := ⟨fuel - 1, by omega⟩
    have h0 : safetyTriggered willUp (sim.cur i) prev target = false := by
      simpa [prevSeqFrom] using hsafe 0 (Nat.le_refl 0)
    rw [Nat.add_zero] at harr
    constructor
    · simp [seekLoop, h0, harr]
    · simp [seekLoop, h0, harr, List.getLast?_append_cons]
  | succ M ih =>
    intro i prev fuel hfuel hsafe harr
    obtain ⟨f, rfl⟩ : ∃ f, fuel = f + 1 := ⟨fuel - 1, by omega⟩
    have h0 : safetyTriggered willUp (sim.cur i) prev target = false := by
      simpa [prevSeqFrom] using hsafe 0 (Nat.zero_le _)
    by_cases harr0 : |target - sim.cur i| ≤ 3 / 1000
    · constructor
      · simp [seekLoop, h0, harr0]
      · simp [seekLoop, h0, harr0, List.getLast?_append_cons]
    · have hsafe' : ∀ k, k ≤ M →
          safetyTriggered willUp (sim.cur (i + 1 + k))
            (prevSeqFrom sim (sim.nxt i) (i + 1) k) target = false := by
        intro k hk
        rw [prevSeqFrom_shift sim prev i k]
        have hidx : i + 1 + k = i + (k + 1) := by omega
        rw [hidx]
        exact hsafe (k + 1) (by omega)
      have harr' : |target - sim.cur (i + 1 + M)| ≤ 3 / 1000 := by
        have hidx : i + 1 + M = i + (M + 1) := by omega
        rw [hidx]
        exact harr
      have IH := ih (i + 1) (sim.nxt i) f (by omega) hsafe' harr'
      have hne : (seekLoop target willUp sim f (sim.nxt i) (i + 1)).1 ≠ [] := by
        intro hnil
        have h2 := IH.2
        rw [hnil] at h2
        simp at h2
      constructor
      · have h1 := IH.1
        simp only [seekLoop]
        simp [h0, harr0]
        exact h1
      · have h2 := IH.2
        simp only [seekLoop]
        simp only [h0, Bool.false_eq_true, if_false, if_neg harr0]
        rw [List.getLast?_append_of_ne_nil _ hne]
        exact h2

/-- The seek loop of the UNMODIFIED source never returns when the start
height is not already within tolerance: since the monitor future is dropped
un-awaited, every cell read yields the starting height, so the safety check
never fires, the tolerance check never passes, and the loop runs forever
(returns `none` for every amount of fuel). -/
lemma seekLoop_constSim_no_return (target h0 : ℚ) (el : ℕ → ℕ) (willUp : Bool)
    (hfar : ¬ |target - h0| ≤ 3 / 1000) :
    ∀ (fuel i : ℕ),
      (seekLoop target willUp (constSim h0 el) fuel h0 i).2 = none := by
  intro fuel
  induction fuel with
  | zero => intro i; rfl
  | succ f ih =>
    intro i
    have hcur : ∀ j, (constSim h0 el).cur j = h0 := fun _ => rfl
    have hnxt : ∀ j, (constSim h0 el).nxt j = h0 := fun _ => rfl
    have hsafe : safetyTriggered willUp h0 h0 target = false := by
      simp [safetyTriggered]
    simp [seekLoop, hcur, hnxt, hsafe, hfar, ih]

/-- C2: for every out-of-bounds target, `move_to_target` returns the
corresponding bounds error carrying the target and issues zero transport
writes — the check precedes the initial height read and the whole loop. -/
theorem move_to_target_bounds_check (target h0 : ℚ) (sim : Sim) (fuel : ℕ) :
    (target > MAX_HEIGHT →
      move_to_target target h0 sim fuel
        = ([], some (Except.error (DeskError.TargetHeightTooHigh target)))) ∧
    (target < MIN_HEIGHT →
      move_to_target target h0 sim fuel
        = ([], some (Except.error (DeskError.TargetHeightTooLow target)))) := by
  constructor
  · intro h
    simp only [move_to_target, if_pos h]
  · intro h
    have hminmax : MIN_HEIGHT ≤ MAX_HEIGHT := by
      norm_num [MIN_HEIGHT, MAX_HEIGHT]
    have h2 : ¬ target > MAX_HEIGHT := by
      simp only [not_lt]
      calc target ≤ MIN_HEIGHT := le_of_lt h
        _ ≤ MAX_HEIGHT := hminmax
    simp only [move_to_target, if_neg h2, if_pos h]

/-- Witness for `move_to_target_bounds_check` at the targets `1.30` (too
high) and `0.61` (too low). -/
theorem move_to_target_bounds_check_witness :
    move_to_target (13 / 10) (7 / 10) (constSim (7 / 10) (fun _ => 50)) 1
        = ([], some (Except.error (DeskError.TargetHeightTooHigh (13 / 10)))) ∧
    move_to_target (61 / 100) (7 / 10) (constSim (7 / 10) (fun _ => 50)) 1
        = ([], some (Except.error (DeskError.TargetHeightTooLow (61 / 100)))) :=
  ⟨(move_to_target_bounds_check (13 / 10) (7 / 10)
        (constSim (7 / 10) (fun _ => 50)) 1).1
      (by norm_num [MAX_HEIGHT]),
    (move_to_target_bounds_check (61 / 100) (7 / 10)
        (constSim (7 / 10) (fun _ => 50)) 1).2
      (by norm_num [MIN_HEIGHT])⟩

/-- C3: (a) in the unmodified source the monitor future is dropped un-awaited
(desk.rs line 167), every cell read returns the starting height, and
`move_to_target` never returns for any amount of fuel unless already within
tolerance — the claimed bounded termination fails on the code; (b) the
intended behaviour holds of the controller logic itself: for every simulated
feed whose reads never reverse against the travel direction and that is
within the 3 mm tolerance at iteration `N`, the call returns `Ok` within
`N + 1` loop iterations and the last command issued is a `stop`. -/
theorem move_to_target_monotone_feed (target h0 : ℚ) (sim : Sim)
    (el : ℕ → ℕ) (N fuel : ℕ)
    (hmax : ¬ target > MAX_HEIGHT) (hmin : ¬ target < MIN_HEIGHT) :
    (¬ |target - h0| ≤ 3 / 1000 →
      (move_to_target target h0 (constSim h0 el) fuel).2 = none) ∧
    (N < fuel →
      (∀ k, k ≤ N →
        noReversal (decide (h0 < target)) (sim.cur k)
          (prevSeqFrom sim h0 0 k) = true) →
      |target - sim.cur N| ≤ 3 / 1000 →
      (move_to_target target h0 sim fuel).2 = some (Except.ok ()) ∧
        (move_to_target target h0 sim fuel).1.getLast? = some Cmd.stop) := by
  constructor
  · intro hfar
    simp only [move_to_target, if_neg hmax, if_neg hmin]
    exact seekLoop_constSim_no_return target h0 el _ hfar fuel 0
  · intro hfuel hmono harr
    have hsafe : ∀ k, k ≤ N →
        safetyTriggered (decide (h0 < target)) (sim.cur (0 + k))
          (prevSeqFrom sim h0 0 k) target = false := by
      intro k hk
      rw [Nat.zero_add]
      exact noReversal_safety_false _ _ _ _ (hmono k hk)
    have harr' : |target - sim.cur (0 + N)| ≤ 3 / 1000 := by
      rw [Nat.zero_add]
      exact harr
    have h := seekLoop_monotone_arrives target (decide (h0 < target)) sim N 0
      h0 fuel hfuel hsafe harr'
    simpa [move_to_target, if_neg hmax, if_neg hmin] using h

/-- Witness for `move_to_target_monotone_feed`: target 0.74 m from 0.70 m;
with the unmodified (constant-read) semantics three iterations of fuel do not
suffice to return, while over the monotone simulated feed the call arrives by
iteration 2 and ends with a `stop`. -/
theorem move_to_target_monotone_feed_witness :
    (move_to_target (37 / 50) (7 / 10) (constSim (7 / 10) (fun _ => 50)) 3).2
        = none ∧
    ((move_to_target (37 / 50) (7 / 10) simMonotone 3).2
          = some (Except.ok ()) ∧
      (move_to_target (37 / 50) (7 / 10) simMonotone 3).1.getLast?
          = some Cmd.stop) :=
  ⟨(move_to_target_monotone_feed (37 / 50) (7 / 10) simMonotone
        (fun _ => 50) 2 3 (by norm_num [MAX_HEIGHT]) (by norm_num [MIN_HEIGHT])).1
      (by decide),
    (move_to_target_monotone_feed (37 / 50) (7 / 10) simMonotone
        (fun _ => 50) 2 3 (by norm_num [MAX_HEIGHT]) (by norm_num [MIN_HEIGHT])).2
      (by decide) (by decide) (by decide)⟩

/-- Safety-abort lemma for the seek loop: if the loop reaches iteration `N`
(no earlier iteration fired the safety check or arrived) and the read of
iteration `N` fires the safety-reversal check, the loop returns the
`DeskMoveSafetyKickedIn` error and the command trace is exactly that of the
earlier iterations — the aborting iteration issues no command at all. -/
lemma seekLoop_safety_abort (target : ℚ) (willUp : Bool) (sim : Sim) :
    ∀ (N i : ℕ) (prev : ℚ) (fuel : ℕ), N < fuel →
      (∀ k, k < N →
        safetyTriggered willUp (sim.cur (i + k)) (prevSeqFrom sim prev i k)
            target = false ∧
          ¬ |target - sim.cur (i + k)| ≤ 3 / 1000) →
      safetyTriggered willUp (sim.cur (i + N)) (prevSeqFrom sim prev i N)
          target = true →
      seekLoop target willUp sim fuel prev i
        = (cmdsBeforeFrom target sim i N,
            some (Except.error DeskError.DeskMoveSafetyKickedIn)) := by
  intro N
  induction N with
  | zero =>
    intro i prev fuel hfuel hpre htrig
    obtain ⟨f, rfl⟩ : ∃ f, fuel = f + 1 := ⟨fuel - 1, by omega⟩
    rw [Nat.add_zero] at htrig
    simp only [prevSeqFrom] at htrig
    simp [seekLoop, htrig, cmdsBeforeFrom]
  | succ M ih =>
    intro i prev fuel hfuel hpre htrig
    obtain ⟨f, rfl⟩ : ∃ f, fuel = f + 1 := ⟨fuel - 1, by omega⟩
    have h0 := hpre 0 (Nat.succ_pos M)
    have h0safe : safetyTriggered willUp (sim.cur i) prev target = false := by
      have := h0.1
      rw [Nat.add_zero] at this
      simpa [prevSeqFrom] using this
    have h0far : ¬ |target - sim.cur i| ≤ 3 / 1000 := by
      have := h0.2
      rwa [Nat.add_zero] at this
    have hpre' : ∀ k, k < M →
        safetyTriggered willUp (sim.cur (i + 1 + k))
            (prevSeqFrom sim (sim.nxt i) (i + 1) k) target = false ∧
          ¬ |target - sim.cur (i + 1 + k)| ≤ 3 / 1000 := by
      intro k hk
      rw [prevSeqFrom_shift sim prev i k]
      have hidx : i + 1 + k = i + (k + 1) := by omega
      rw [hidx]
      exact hpre (k + 1) (by omega)
    have htrig' : safetyTriggered willUp (sim.cur (i + 1 + M))
        (prevSeqFrom sim (sim.nxt i) (i + 1) M) target = true := by
      rw [prevSeqFrom_shift sim prev i M]
      have hidx : i + 1 + M = i + (M + 1) := by omega
      rw [hidx]
      exact htrig
    have IH := ih (i + 1) (sim.nxt i) f (by omega) hpre' htrig'
    simp only [seekLoop]
    simp only [h0safe, Bool.false_eq_true, if_false, if_neg h0far]
    rw [IH]
    simp only [cmdsBeforeFrom, iterCmds]
    rw [if_neg h0far]

/-- C1 counterexample: with a simulated feed that reports 0.68 m (20 mm below
the 0.70 m previous sample) while seeking up to 0.80 m — an opposite-direction
move with |difference| = 0.12 m > 10 mm — `move_to_target` returns the safety
error, but NO stop command has been issued on or before the aborting
iteration: the command trace is empty. -/
theorem move_to_target_reversal_abort_without_stop :
    (move_to_target (4 / 5) (7 / 10) simReversal 5).2
        = some (Except.error DeskError.DeskMoveSafetyKickedIn) ∧
      Cmd.stop ∉ (move_to_target (4 / 5) (7 / 10) simReversal 5).1 :=
  ⟨rfl, by decide⟩

/-- C1 amended: whenever the seek loop reaches an iteration at which the
sampled height has moved opposite to the travel direction with
|target − current| > 10 mm, `move_to_target` returns the distinguished
`DeskMoveSafetyKickedIn` error immediately and the aborting iteration issues
no command at all — no further move commands, but also no stop: the trace is
exactly the commands of the earlier iterations, so an explicit stop is NOT
guaranteed to have been issued. -/
theorem move_to_target_safety_abort_trace (target h0 : ℚ) (sim : Sim)
    (N fuel : ℕ)
    (hmax : ¬ target > MAX_HEIGHT) (hmin : ¬ target < MIN_HEIGHT)
    (hfuel : N < fuel)
    (hpre : ∀ k, k < N →
      safetyTriggered (decide (h0 < target)) (sim.cur k)
          (prevSeqFrom sim h0 0 k) target = false ∧
        ¬ |target - sim.cur k| ≤ 3 / 1000)
    (htrig : safetyTriggered (decide (h0 < target)) (sim.cur N)
        (prevSeqFrom sim h0 0 N) target = true) :
    move_to_target target h0 sim fuel
      = (cmdsBefore target sim N,
          some (Except.error DeskError.DeskMoveSafetyKickedIn)) := by
  have hpre' : ∀ k, k < N →
      safetyTriggered (decide (h0 < target)) (sim.cur (0 + k))
          (prevSeqFrom sim h0 0 k) target = false ∧
        ¬ |target - sim.cur (0 + k)| ≤ 3 / 1000 := by
    intro k hk
    rw [Nat.zero_add]
    exact hpre k hk
  have htrig' : safetyTriggered (decide (h0 < target)) (sim.cur (0 + N))
      (prevSeqFrom sim h0 0 N) target = true := by
    rw [Nat.zero_add]
    exact htrig
  have h := seekLoop_safety_abort target (decide (h0 < target)) sim N 0 h0
    fuel hfuel hpre' htrig'
  simpa [move_to_target, if_neg hmax, if_neg hmin, cmdsBefore] using h

/-- Witness for `move_to_target_safety_abort_trace`: seeking 0.80 m from
0.70 m over `simReversalLater`, iteration 0 is unremarkable and iteration 1
reads 0.69 m against the 0.71 m previous sample — the call aborts with the
safety error and the trace is exactly iteration 0's commands. -/
theorem move_to_target_safety_abort_trace_witness :
    move_to_target (4 / 5) (7 / 10) simReversalLater 3
      = (cmdsBefore (4 / 5) simReversalLater 1,
          some (Except.error DeskError.DeskMoveSafetyKickedIn)) :=
  move_to_target_safety_abort_trace (4 / 5) (7 / 10) simReversalLater 1 3
    (by norm_num [MAX_HEIGHT]) (by norm_num [MIN_HEIGHT]) (by norm_num)
    (by decide) (by decide)

end IdasenDesk
